import Mathlib

/-!
Verification of the cloud synchronization subsystem of the portfolio app.

The embedding follows `src/app/lib/cloudSync.ts`, `src/app/lib/supabaseClient.ts`
and the `CloudSyncPanel` component (bootstrap effect, periodic pull tick,
periodic push tick, reload throttle).

Modelling conventions:
- the browser local storage is a function `String → Option String`
  (`localStorage.getItem` returns the value or `null`);
- a payload (`Record<string, string>`, a JSON object with string values)
  is an association list `List (String × String)` with the JS invariant of
  unique keys; `objectKeys` models `Object.keys`, `plookup` models property
  access `payload[key]` (first match), and JS `===` between a possibly
  `undefined` property and a string is propositional equality of
  `Option String`;
- `sessionStorage` availability is a boolean: when it is `false` every
  getItem/setItem throws, which the source catches (`getLastAutoReloadAt`
  returns 0, `markAutoReloadNow` ignores the error);
- the cooldown cell stores `String(Date.now())` and is read back with
  `Number(... || '0')`, so it round-trips as an integer; timestamps are `Int`
  (JS number arithmetic on integral milliseconds);
- network failure of the remote upsert is an explicit boolean; a thrown
  backend error is `Except.error`.
-/

/-- The fixed synced key set, from `SYNC_KEYS` in `cloudSync.ts`:
four component keys plus `monthlyBudget_1 .. monthlyBudget_12`. -/
def SYNC_KEYS : List String :=
  ["stockPortfolio", "stockWatchlist", "bankAccounts", "assetTrend"]
    ++ (List.range 12).map (fun i => "monthlyBudget_" ++ toString (i + 1))

/-- Browser local storage: `localStorage.getItem key` is `ls key`. -/
abbrev LocalStore : Type := String → Option String

/-- `localStorage.setItem key v`. -/
def setItem (ls : LocalStore) (key v : String) : LocalStore :=
  fun k => if k = key then some v else ls k

/-- A `CloudPayload` (`Record<string, string>`): a JSON object with
string values, as an association list with unique keys. -/
abbrev Payload : Type := List (String × String)

/-- `Object.keys payload`. -/
def objectKeys (p : Payload) : List String := p.map Prod.fst

/-- JS property access `payload[key]`: the value at `key`, or `undefined`
(`none`) when the key is absent.  First match, which for the unique-key
JSON objects of this app is the value of the property. -/
def plookup (key : String) : Payload → Option String
  | [] => none
  | (k, v) :: rest => if key = k then some v else plookup key rest

/-- `readLocalStoragePayload` from `cloudSync.ts`: for each key of
`SYNC_KEYS`, include `key ↦ v` when `localStorage.getItem key = v ≠ null`. -/
def readLocalStoragePayload (ls : LocalStore) : Payload :=
  SYNC_KEYS.filterMap (fun k => (ls k).map (fun v => (k, v)))

/-- Helper for `writeLocalStoragePayload`: iterate a list of keys and
`setItem key payload[key]` for each. -/
def writeKeys (p : Payload) (ks : List String) (ls : LocalStore) : LocalStore :=
  ks.foldl
    (fun s k =>
      match plookup k p with
      | some v => setItem s k v
      | none => s)
    ls

/-- `writeLocalStoragePayload` from `cloudSync.ts`: for each key of
`Object.keys payload`, `localStorage.setItem(key, payload[key])`;
keys absent from the payload are not touched. -/
def writeLocalStoragePayload (p : Payload) (ls : LocalStore) : LocalStore :=
  writeKeys p (objectKeys p) ls

/-- Models `JSON.stringify` on a string-valued record (the digest kept in
`lastPushedRef`); value escaping is not modelled, the payload values are
opaque.  Only used as an equality witness of payloads. -/
def stringifyPayload (p : Payload) : String :=
  "\x7b"
    ++ String.intercalate ","
      (p.map (fun kv => "\"" ++ kv.1 ++ "\":\"" ++ kv.2 ++ "\""))
    ++ "\x7d"

/-- `AUTO_RELOAD_INTERVAL_MS = 60 * 60 * 1000` (one hour). -/
def AUTO_RELOAD_INTERVAL_MS : Int := 60 * 60 * 1000

/-- The session-scoped storage cell `cloudSyncLastAutoReloadAt` of the
reload throttle: `avail = false` models a `sessionStorage` whose every
read and write throws; `cell` is the stored timestamp, written as
`String(Date.now())` and parsed back with `Number(... || '0')`. -/
structure ReloadStore where
  avail : Bool
  cell : Option Int

/-- `getLastAutoReloadAt`: `Number(sessionStorage.getItem(KEY) || '0')`,
with the surrounding `try/catch` returning 0 when storage is unavailable. -/
def getLastAutoReloadAt (rs : ReloadStore) : Int :=
  if rs.avail then rs.cell.getD 0 else 0

/-- `canAutoReloadNow`: `Date.now() - last >= AUTO_RELOAD_INTERVAL_MS`. -/
def canAutoReloadNow (rs : ReloadStore) (now : Int) : Bool :=
  decide (AUTO_RELOAD_INTERVAL_MS ≤ now - getLastAutoReloadAt rs)

/-- `markAutoReloadNow`: `sessionStorage.setItem(KEY, String(Date.now()))`,
with the `try/catch` ignoring the error when storage is unavailable. -/
def markAutoReloadNow (rs : ReloadStore) (now : Int) : ReloadStore :=
  if rs.avail then { rs with cell := some now } else rs

/-- The equality check of both pull sites:
`Object.keys(cloudPayload).every((k) => localPayload[k] === cloudPayload[k])`. -/
def isSamePayload (cloud localPayload : Payload) : Bool :=
  (objectKeys cloud).all (fun k => decide (plookup k localPayload = plookup k cloud))

/-- Outcome labels of a pull, per the spec: `noRemoteData` when the fetch
yields no record (the code treats a record with an empty payload
identically), `upToDate` when every remote-supplied key matches the local
value, `merged` when the local store was overwritten. -/
inductive PullOutcome where
  | noRemoteData
  | upToDate
  | merged
deriving DecidableEq, Repr

/-- Result of one periodic pull tick: the local store and throttle cell
after the tick, whether a full reload was scheduled
(`setTimeout(() => window.location.reload(), 600)`), and whether the
refresh-manually notification (the throttled-branch message) was shown. -/
structure PullTickResult where
  store : LocalStore
  rs : ReloadStore
  reloadScheduled : Bool
  notified : Bool
  outcome : PullOutcome

/-- The periodic pull tick of `CloudSyncPanel` (effect 1-b), applied to the
payload returned by `pullFromCloud`: return early when there is no payload
or it has no keys; compare the cloud keys against the local payload; when
they differ, overwrite local storage with the cloud payload, then either
schedule a reload (marking the throttle) or only show the refresh notice. -/
def periodicPullTick (cloud : Option Payload) (ls : LocalStore)
    (rs : ReloadStore) (now : Int) : PullTickResult :=
  match cloud with
  | none => ⟨ls, rs, false, false, .noRemoteData⟩
  | some p =>
    if (objectKeys p).length = 0 then ⟨ls, rs, false, false, .noRemoteData⟩
    else
      let localPayload := readLocalStoragePayload ls
      if isSamePayload p localPayload then ⟨ls, rs, false, false, .upToDate⟩
      else
        let ls2 := writeLocalStoragePayload p ls
        if canAutoReloadNow rs now then
          ⟨ls2, markAutoReloadNow rs now, true, false, .merged⟩
        else
          ⟨ls2, rs, false, true, .merged⟩

/-- `pullFromCloud` from `cloudSync.ts` on the success path: `null` when the
client is not configured, otherwise the stored record's payload (or `null`
when there is no record).  A backend error is thrown (not modelled here:
every caller catches it and leaves local state untouched). -/
def pullFromCloud (configured : Bool) (remote : Option Payload) : Option Payload :=
  if configured then remote else none

/-- `pushToCloud` from `cloudSync.ts`: no-op when the client is not
configured; otherwise upsert the record keyed by the user id, throwing on a
backend error.  Returns the remote record after the call and whether a
network upsert was issued. -/
def pushToCloud (configured : Bool) (fail : Bool) (remote : Option Payload)
    (p : Payload) : Except Unit (Option Payload × Bool) :=
  if configured then
    if fail then .error () else .ok (some p, true)
  else .ok (remote, false)

/-- Result of one push tick: local store (read-only for this tick), remote
record, `lastPushedRef`, `pushingRef` after the `finally`, whether a network
upsert was issued, and whether the catch branch ran (error logged). -/
structure PushTickResult where
  ls : LocalStore
  remote : Option Payload
  lastPushed : String
  pushing : Bool
  upsertCalled : Bool
  errored : Bool

/-- The periodic push tick of `CloudSyncPanel` (effect 2): skip when a push
is already in flight; skip when the digest of the snapshot equals
`lastPushedRef`; skip when focus is in a text-entry field; otherwise set
`pushingRef`, call `pushToCloud`, and on success record the new digest.
The `catch` only logs; the `finally` clears `pushingRef`. -/
def pushTick (ls : LocalStore) (remote : Option Payload) (lastPushed : String)
    (pushing : Bool) (typing : Bool) (fail : Bool) : PushTickResult :=
  if pushing then ⟨ls, remote, lastPushed, true, false, false⟩
  else
    let payload := readLocalStoragePayload ls
    let json := stringifyPayload payload
    if json = lastPushed then ⟨ls, remote, lastPushed, false, false, false⟩
    else if typing then ⟨ls, remote, lastPushed, false, false, false⟩
    else
      match pushToCloud true fail remote payload with
      | .error _ => ⟨ls, remote, lastPushed, false, true, true⟩
      | .ok (r2, called) => ⟨ls, r2, json, false, called, false⟩

/-- Result of the bootstrap effect (effect 1): local store, throttle cell,
whether a reload was scheduled, whether the baseline push ran, the remote
record and `lastPushedRef` afterwards, and the outcome of the initial pull. -/
structure BootstrapResult where
  store : LocalStore
  rs : ReloadStore
  reloadScheduled : Bool
  pushed : Bool
  remote : Option Payload
  lastPushed : String
  outcome : PullOutcome

/-- The bootstrap effect of `CloudSyncPanel` (effect 1) on the success path:
pull once; when the cloud payload exists and has keys, compare it with the
local payload, overwrite local storage when they differ, and when a reload
is allowed mark the throttle, schedule the reload and return; in every
other case fall through to pushing the current local snapshot as baseline
and recording its digest in `lastPushedRef`. -/
def bootstrap (cloud : Option Payload) (ls : LocalStore) (rs : ReloadStore)
    (now : Int) (lastPushed : String) (remote : Option Payload) : BootstrapResult :=
  let finish := fun (ls2 : LocalStore) (rs2 : ReloadStore) (o : PullOutcome) =>
    let localPayload := readLocalStoragePayload ls2
    BootstrapResult.mk ls2 rs2 false true (some localPayload)
      (stringifyPayload localPayload) o
  match cloud with
  | some p =>
    if 0 < (objectKeys p).length then
      let localBefore := readLocalStoragePayload ls
      let isSame := isSamePayload p localBefore
      let ls2 := if isSame then ls else writeLocalStoragePayload p ls
      if !isSame && canAutoReloadNow rs now then
        BootstrapResult.mk ls2 (markAutoReloadNow rs now) true false
          remote lastPushed .merged
      else
        finish ls2 rs (if isSame then .upToDate else .merged)
    else finish ls rs .noRemoteData
  | none => finish ls rs .noRemoteData

/-- Whole-system state for one identity: local storage, the remote record,
the reload-throttle cell, `lastPushedRef` and `pushingRef`. -/
structure SyncState where
  ls : LocalStore
  remote : Option Payload
  rs : ReloadStore
  lastPushed : String
  pushing : Bool

/-- Events of an execution of the Sync Engine: the bootstrap effect, a
periodic pull tick, a periodic push tick (with whether focus is in a text
field and whether the upsert fails). -/
inductive SyncEv where
  | boot (now : Int)
  | pullTickEv (now : Int)
  | pushTickEv (typing : Bool) (fail : Bool)

/-- One engine step: each effect runs with a configured client (the effects
return early when `supabase` is null, so no event is generated then). -/
def step (s : SyncState) : SyncEv → SyncState
  | .boot now =>
    let b := bootstrap (pullFromCloud true s.remote) s.ls s.rs now
      s.lastPushed s.remote
    ⟨b.store, b.remote, b.rs, b.lastPushed, s.pushing⟩
  | .pullTickEv now =>
    let t := periodicPullTick (pullFromCloud true s.remote) s.ls s.rs now
    ⟨t.store, s.remote, t.rs, s.lastPushed, s.pushing⟩
  | .pushTickEv typing fail =>
    let r := pushTick s.ls s.remote s.lastPushed s.pushing typing fail
    ⟨r.ls, r.remote, s.rs, r.lastPushed, r.pushing⟩

/-- An execution: fold the step over a list of events. -/
def run (s : SyncState) (evs : List SyncEv) : SyncState :=
  evs.foldl step s

/-- The remote record, when present, only holds keys of the synced key set. -/
def remoteOK (r : Option Payload) : Prop :=
  ∀ p, r = some p → ∀ k, k ∈ objectKeys p → k ∈ SYNC_KEYS

/-- A local store holding no synced key. -/
def emptyStore : LocalStore := fun _ => none

/-- A local store holding one synced key, for concrete checks. -/
def sampleStore : LocalStore :=
  fun k => if k = "stockPortfolio" then some "a" else none

/-- A remote payload disagreeing with `sampleStore` and `emptyStore`. -/
def cloudB : Payload := [("stockPortfolio", "b")]

/-- A second disagreeing remote payload (another device's edit). -/
def cloudC : Payload := [("stockPortfolio", "c")]

/-! ### Association-list and storage laws -/

lemma SYNC_KEYS_nodup : SYNC_KEYS.Nodup := by decide

lemma plookup_eq_none_of_not_mem {k : String} {p : Payload}
    (h : k ∉ objectKeys p) : plookup k p = none := by
  induction p with
  | nil => rfl
  | cons kv rest ih =>
    simp only [objectKeys, List.map_cons, List.mem_cons, not_or] at h
    simpa [plookup, h.1] using ih (by simpa [objectKeys] using h.2)

lemma plookup_ne_none_of_mem {k : String} {p : Payload}
    (h : k ∈ objectKeys p) : plookup k p ≠ none := by
  induction p with
  | nil => simp [objectKeys] at h
  | cons kv rest ih =>
    by_cases hk : k = kv.1
    · simp [plookup, hk]
    · simp only [objectKeys, List.map_cons, List.mem_cons] at h
      rcases h with h | h
      · exact absurd h hk
      · simpa [plookup, hk] using ih (by simpa [objectKeys] using h)

lemma mem_objectKeys_of_plookup {k : String} {p : Payload} {v : String}
    (h : plookup k p = some v) : k ∈ objectKeys p := by
  by_contra hmem
  rw [plookup_eq_none_of_not_mem hmem] at h
  cases h

lemma setItem_apply (ls : LocalStore) (key v k : String) :
    setItem ls key v k = if k = key then some v else ls k := rfl

lemma writeKeys_apply (p : Payload) (ks : List String) (ls : LocalStore) (k : String) :
    writeKeys p ks ls k = if k ∈ ks then (plookup k p).or (ls k) else ls k := by
  induction ks generalizing ls with
  | nil => simp [writeKeys]
  | cons a ks ih =>
    have hstep : writeKeys p (a :: ks) ls
        = writeKeys p ks (match plookup a p with
            | some v => setItem ls a v
            | none => ls) := rfl
    rw [hstep, ih]
    by_cases hka : k = a
    · subst hka
      cases hpk : plookup k p with
      | none => simp [hpk]
      | some v => by_cases hks : k ∈ ks <;> simp [hpk, hks, setItem]
    · cases hpa : plookup a p with
      | none => simp [hka]
      | some v => simp [hka, setItem_apply, if_neg hka]

lemma writeLocalStoragePayload_apply (p : Payload) (ls : LocalStore) (k : String) :
    writeLocalStoragePayload p ls k = (plookup k p).or (ls k) := by
  rw [writeLocalStoragePayload, writeKeys_apply]
  by_cases h : k ∈ objectKeys p
  · simp [h]
  · simp [h, plookup_eq_none_of_not_mem h]

lemma plookup_filterMap (ls : LocalStore) (ks : List String) (hk : ks.Nodup)
    (k : String) :
    plookup k (ks.filterMap (fun k2 => (ls k2).map (fun v => (k2, v))))
      = if k ∈ ks then ls k else none := by
  induction ks with
  | nil => simp [plookup]
  | cons a ks ih =>
    obtain ⟨ha, hnd⟩ := List.nodup_cons.mp hk
    rw [List.filterMap_cons]
    cases hla : ls a with
    | none =>
      rw [Option.map_none']
      rw [ih hnd]
      by_cases hka : k = a
      · subst hka
        simp [ha, hla]
      · simp [hka]
    | some v =>
      rw [Option.map_some']
      by_cases hka : k = a
      · subst hka
        simp [plookup, hla]
      · simp only [plookup, if_neg hka, ih hnd]
        simp [hka]

lemma plookup_read (ls : LocalStore) (k : String) :
    plookup k (readLocalStoragePayload ls)
      = if k ∈ SYNC_KEYS then ls k else none :=
  plookup_filterMap ls SYNC_KEYS SYNC_KEYS_nodup k

lemma mem_SYNC_KEYS_of_mem_read {ls : LocalStore} {k : String}
    (h : k ∈ objectKeys (readLocalStoragePayload ls)) : k ∈ SYNC_KEYS := by
  by_contra hk
  exact plookup_ne_none_of_mem h (by rw [plookup_read]; simp [hk])

lemma isSamePayload_spec {c q : Payload} (h : isSamePayload c q = true)
    {k : String} (hk : k ∈ objectKeys c) : plookup k q = plookup k c :=
  of_decide_eq_true (List.all_eq_true.mp h k hk)

/-! ### Pull-tick branch laws -/

lemma periodicPullTick_store (c : Payload) (ls : LocalStore) (rs : ReloadStore)
    (now : Int) (k : String) :
    (periodicPullTick (some c) ls rs now).store k = (plookup k c).or (ls k) := by
  by_cases h0 : (objectKeys c).length = 0
  · have hc : c = [] := by
      cases c with
      | nil => rfl
      | cons kv rest => simp [objectKeys] at h0
    subst hc
    simp [periodicPullTick, plookup, objectKeys]
  · by_cases hs : isSamePayload c (readLocalStoragePayload ls) = true
    · have hstore : (periodicPullTick (some c) ls rs now).store = ls := by
        simp [periodicPullTick, h0, hs]
      rw [hstore]
      cases hpc : plookup k c with
      | none => simp
      | some v =>
        have hmem := mem_objectKeys_of_plookup hpc
        have heq := isSamePayload_spec hs hmem
        rw [hpc, plookup_read] at heq
        by_cases hsk : k ∈ SYNC_KEYS
        · rw [if_pos hsk] at heq
          simp [heq]
        · rw [if_neg hsk] at heq
          cases heq
    · have hstore : (periodicPullTick (some c) ls rs now).store
          = writeLocalStoragePayload c ls := by
        by_cases hcan : canAutoReloadNow rs now = true <;>
          simp [periodicPullTick, h0, hs, hcan]
      rw [hstore, writeLocalStoragePayload_apply]

lemma periodicPullTick_rs_of_reload {c : Option Payload} {ls : LocalStore}
    {rs : ReloadStore} {now : Int}
    (h : (periodicPullTick c ls rs now).reloadScheduled = true) :
    (periodicPullTick c ls rs now).rs = markAutoReloadNow rs now := by
  match c with
  | none => simp [periodicPullTick] at h
  | some p =>
    by_cases h0 : (objectKeys p).length = 0
    · simp [periodicPullTick, h0] at h
    · by_cases hs : isSamePayload p (readLocalStoragePayload ls) = true
      · simp [periodicPullTick, h0, hs] at h
      · by_cases hcan : canAutoReloadNow rs now = true
        · simp [periodicPullTick, h0, hs, hcan]
        · simp [periodicPullTick, h0, hs, hcan] at h

lemma periodicPullTick_merged {c : Payload} {ls : LocalStore}
    (rs : ReloadStore) (now : Int)
    (h0 : objectKeys c ≠ [])
    (hs : isSamePayload c (readLocalStoragePayload ls) = false) :
    (periodicPullTick (some c) ls rs now).reloadScheduled = canAutoReloadNow rs now
    ∧ (periodicPullTick (some c) ls rs now).notified = !(canAutoReloadNow rs now)
    ∧ (periodicPullTick (some c) ls rs now).outcome = PullOutcome.merged := by
  have h0' : ¬((objectKeys c).length = 0) := by
    simpa [List.length_eq_zero] using h0
  by_cases hcan : canAutoReloadNow rs now = true <;>
    simp [periodicPullTick, h0', hs, hcan]

lemma periodicPullTick_self (ls : LocalStore) (rs : ReloadStore) (now : Int) :
    periodicPullTick (some (readLocalStoragePayload ls)) ls rs now
      = ⟨ls, rs, false, false,
          if (objectKeys (readLocalStoragePayload ls)).length = 0
          then PullOutcome.noRemoteData else PullOutcome.upToDate⟩ := by
  have hsame : isSamePayload (readLocalStoragePayload ls)
      (readLocalStoragePayload ls) = true := by
    simp [isSamePayload, List.all_eq_true]
  by_cases h0 : (objectKeys (readLocalStoragePayload ls)).length = 0 <;>
    simp [periodicPullTick, h0, hsame]

/-! ### Push-tick and bootstrap branch laws -/

lemma pullFromCloud_true (r : Option Payload) : pullFromCloud true r = r := by
  simp [pullFromCloud]

lemma pullFromCloud_false (r : Option Payload) : pullFromCloud false r = none := by
  simp [pullFromCloud]

lemma pushTick_ls (ls : LocalStore) (remote : Option Payload)
    (lastPushed : String) (pushing typing fail : Bool) :
    (pushTick ls remote lastPushed pushing typing fail).ls = ls := by
  by_cases hp : pushing = true <;>
  by_cases hj : stringifyPayload (readLocalStoragePayload ls) = lastPushed <;>
  by_cases ht : typing = true <;>
  by_cases hf : fail = true <;>
  simp [pushTick, pushToCloud, hp, hj, ht, hf]

lemma pushTick_remote_cases (ls : LocalStore) (remote : Option Payload)
    (lastPushed : String) (pushing typing fail : Bool) :
    (pushTick ls remote lastPushed pushing typing fail).remote = remote
    ∨ (pushTick ls remote lastPushed pushing typing fail).remote
        = some (readLocalStoragePayload ls) := by
  by_cases hp : pushing = true <;>
  by_cases hj : stringifyPayload (readLocalStoragePayload ls) = lastPushed <;>
  by_cases ht : typing = true <;>
  by_cases hf : fail = true <;>
  simp [pushTick, pushToCloud, hp, hj, ht, hf]

lemma bootstrap_shape (cloud : Option Payload) (ls : LocalStore)
    (rs : ReloadStore) (now : Int) (lastPushed : String)
    (remote : Option Payload) :
    ((bootstrap cloud ls rs now lastPushed remote).store = ls
      ∨ ∃ p, cloud = some p
          ∧ (bootstrap cloud ls rs now lastPushed remote).store
              = writeLocalStoragePayload p ls)
    ∧ ((bootstrap cloud ls rs now lastPushed remote).remote = remote
      ∨ (bootstrap cloud ls rs now lastPushed remote).remote
          = some (readLocalStoragePayload
              (bootstrap cloud ls rs now lastPushed remote).store)) := by
  match cloud with
  | none => constructor
            · left
              simp [bootstrap]
            · right
              simp [bootstrap]
  | some p =>
    by_cases h0 : 0 < (objectKeys p).length
    · by_cases hs : isSamePayload p (readLocalStoragePayload ls) = true
      · constructor
        · left
          simp [bootstrap, h0, hs]
        · right
          simp [bootstrap, h0, hs]
      · have hs' : isSamePayload p (readLocalStoragePayload ls) = false := by
          simpa using hs
        by_cases hcan : canAutoReloadNow rs now = true
        · constructor
          · right
            exact ⟨p, rfl, by simp [bootstrap, h0, hs', hcan]⟩
          · left
            simp [bootstrap, h0, hs', hcan]
        · have hcan' : canAutoReloadNow rs now = false := by simpa using hcan
          constructor
          · right
            exact ⟨p, rfl, by simp [bootstrap, h0, hs', hcan']⟩
          · right
            simp [bootstrap, h0, hs', hcan']
    · constructor
      · left
        simp [bootstrap, h0]
      · right
        simp [bootstrap, h0]

/-! ### The synced-key-set execution invariant -/

lemma step_preserves {s : SyncState} (e : SyncEv) (h : remoteOK s.remote) :
    remoteOK (step s e).remote
    ∧ ∀ k, k ∉ SYNC_KEYS → (step s e).ls k = s.ls k := by
  match e with
  | .pullTickEv now =>
    constructor
    · simpa [step] using h
    · intro k hk
      show (periodicPullTick (pullFromCloud true s.remote) s.ls s.rs now).store k
        = s.ls k
      rw [pullFromCloud_true]
      cases hr : s.remote with
      | none => simp [periodicPullTick]
      | some p =>
        rw [periodicPullTick_store]
        have hmem : k ∉ objectKeys p := fun hmem => hk (h p hr k hmem)
        rw [plookup_eq_none_of_not_mem hmem]
        rfl
  | .pushTickEv typing fail =>
    constructor
    · show remoteOK (pushTick s.ls s.remote s.lastPushed s.pushing typing fail).remote
      rcases pushTick_remote_cases s.ls s.remote s.lastPushed s.pushing typing fail
        with hr | hr
      · rw [hr]; exact h
      · rw [hr]
        intro p hp k hmem
        cases hp
        exact mem_SYNC_KEYS_of_mem_read hmem
    · intro k hk
      show (pushTick s.ls s.remote s.lastPushed s.pushing typing fail).ls k = s.ls k
      rw [pushTick_ls]
  | .boot now =>
    obtain ⟨hst, hrem⟩ := bootstrap_shape (pullFromCloud true s.remote) s.ls s.rs
      now s.lastPushed s.remote
    constructor
    · show remoteOK (bootstrap (pullFromCloud true s.remote) s.ls s.rs now
        s.lastPushed s.remote).remote
      rcases hrem with hr | hr
      · rw [hr]; exact h
      · rw [hr]
        intro p hp k hmem
        cases hp
        exact mem_SYNC_KEYS_of_mem_read hmem
    · intro k hk
      show (bootstrap (pullFromCloud true s.remote) s.ls s.rs now
        s.lastPushed s.remote).store k = s.ls k
      rcases hst with hr | ⟨p, hp, hr⟩
      · rw [hr]
      · rw [hr, writeLocalStoragePayload_apply]
        rw [pullFromCloud_true] at hp
        have hmem : k ∉ objectKeys p := fun hmem => hk (h p hp k hmem)
        rw [plookup_eq_none_of_not_mem hmem]
        rfl

lemma run_preserves (evs : List SyncEv) (s : SyncState) (h : remoteOK s.remote) :
    remoteOK (run s evs).remote
    ∧ ∀ k, k ∉ SYNC_KEYS → (run s evs).ls k = s.ls k := by
  induction evs generalizing s with
  | nil => exact ⟨h, fun k _ => rfl⟩
  | cons e evs ih =>
    obtain ⟨h1, h2⟩ := step_preserves e h
    obtain ⟨h3, h4⟩ := ih (step s e) h1
    refine ⟨h3, fun k hk => ?_⟩
    calc (run (step s e) evs).ls k = (step s e).ls k := h4 k hk
    _ = s.ls k := h2 k hk

/-! ### Claim theorems -/

/-- C1: pushing the Local Store snapshot restricted to the synced key set
and then pulling with no intervening remote write succeeds, leaves the
Local Store and the throttle cell untouched, schedules no reload and no
notification, and (whenever the snapshot is nonempty) the pull outcome is
`upToDate`: every key supplied by the pulled payload equals the local value. -/
theorem push_then_pull_upToDate (ls : LocalStore) (rs : ReloadStore)
    (now : Int) (remote0 : Option Payload) :
    pushToCloud true false remote0 (readLocalStoragePayload ls)
      = Except.ok (some (readLocalStoragePayload ls), true)
    ∧ (periodicPullTick (pullFromCloud true (some (readLocalStoragePayload ls)))
        ls rs now).store = ls
    ∧ (periodicPullTick (pullFromCloud true (some (readLocalStoragePayload ls)))
        ls rs now).rs = rs
    ∧ (periodicPullTick (pullFromCloud true (some (readLocalStoragePayload ls)))
        ls rs now).reloadScheduled = false
    ∧ (periodicPullTick (pullFromCloud true (some (readLocalStoragePayload ls)))
        ls rs now).notified = false
    ∧ (readLocalStoragePayload ls ≠ []
        → (periodicPullTick (pullFromCloud true (some (readLocalStoragePayload ls)))
            ls rs now).outcome = PullOutcome.upToDate) := by
  rw [pullFromCloud_true, periodicPullTick_self]
  refine ⟨by simp [pushToCloud], rfl, rfl, rfl, rfl, fun hne => ?_⟩
  have h0 : ¬((objectKeys (readLocalStoragePayload ls)).length = 0) := by
    simpa [objectKeys, List.length_eq_zero] using hne
  simp [h0]

/-- Witness for C1 at a store with a nonempty snapshot. -/
theorem push_then_pull_upToDate_witness :
    readLocalStoragePayload sampleStore ≠ []
    ∧ (periodicPullTick
        (pullFromCloud true (some (readLocalStoragePayload sampleStore)))
        sampleStore ⟨true, none⟩ 0).outcome = PullOutcome.upToDate :=
  ⟨by decide,
   (push_then_pull_upToDate sampleStore ⟨true, none⟩ 0 none).2.2.2.2.2 (by decide)⟩

/-- C2: a pull of remote payload `c` gives, at every key, the remote value
when `c` supplies the key and the prior local value otherwise: the pull
overwrites exactly the keys present in the remote payload and never deletes
or modifies a key the remote payload does not supply. -/
theorem pull_frame (c : Payload) (ls : LocalStore) (rs : ReloadStore)
    (now : Int) (k : String) :
    (periodicPullTick (pullFromCloud true (some c)) ls rs now).store k
      = (plookup k c).or (ls k) := by
  rw [pullFromCloud_true]
  exact periodicPullTick_store c ls rs now k

/-- C3: in every execution of the Sync Engine, every pushed payload (a
Local Store snapshot) only contains keys of the synced key set, the remote
record only ever holds such keys, and every Local Store key outside the
synced key set keeps its initial value across the whole execution. -/
theorem synced_key_set_invariant (s0 : SyncState) (evs : List SyncEv)
    (h : remoteOK s0.remote) :
    (∀ ls k, k ∈ objectKeys (readLocalStoragePayload ls) → k ∈ SYNC_KEYS)
    ∧ remoteOK (run s0 evs).remote
    ∧ ∀ k, k ∉ SYNC_KEYS → (run s0 evs).ls k = s0.ls k := by
  obtain ⟨h1, h2⟩ := run_preserves evs s0 h
  exact ⟨fun ls k hk => mem_SYNC_KEYS_of_mem_read hk, h1, h2⟩

/-- Witness for C3: an execution from an empty remote leaves the
non-synced key `diaryNotes` untouched. -/
theorem synced_key_set_invariant_witness :
    remoteOK (none : Option Payload)
    ∧ (run ⟨sampleStore, none, ⟨true, none⟩, "", false⟩
        [SyncEv.boot 0, SyncEv.pullTickEv 3600000,
         SyncEv.pushTickEv false false]).ls "diaryNotes"
      = sampleStore "diaryNotes" :=
  And.intro (fun p hp => nomatch hp)
    ((synced_key_set_invariant ⟨sampleStore, none, ⟨true, none⟩, "", false⟩
      [SyncEv.boot 0, SyncEv.pullTickEv 3600000, SyncEv.pushTickEv false false]
      (fun p hp => nomatch hp)).2.2 "diaryNotes" (by decide))

/-- C4: with no push in flight and focus outside text fields, pushing a
changed snapshot issues one upsert and records its digest; a second push
tick with the Local Store snapshot unchanged computes a digest equal to
`lastPushedDigest` and short-circuits with no network call, leaving the
remote record and the digest as after the first push. -/
theorem push_twice_single_upsert (ls : LocalStore) (remote : Option Payload)
    (lastPushed : String)
    (h : stringifyPayload (readLocalStoragePayload ls) ≠ lastPushed) :
    (pushTick ls remote lastPushed false false false).upsertCalled = true
    ∧ (pushTick ls remote lastPushed false false false).remote
        = some (readLocalStoragePayload ls)
    ∧ (pushTick ls
        (pushTick ls remote lastPushed false false false).remote
        (pushTick ls remote lastPushed false false false).lastPushed
        (pushTick ls remote lastPushed false false false).pushing
        false false).upsertCalled = false
    ∧ (pushTick ls
        (pushTick ls remote lastPushed false false false).remote
        (pushTick ls remote lastPushed false false false).lastPushed
        (pushTick ls remote lastPushed false false false).pushing
        false false).remote
      = (pushTick ls remote lastPushed false false false).remote
    ∧ (pushTick ls
        (pushTick ls remote lastPushed false false false).remote
        (pushTick ls remote lastPushed false false false).lastPushed
        (pushTick ls remote lastPushed false false false).pushing
        false false).lastPushed
      = (pushTick ls remote lastPushed false false false).lastPushed := by
  have hr1 : pushTick ls remote lastPushed false false false
      = ⟨ls, some (readLocalStoragePayload ls),
          stringifyPayload (readLocalStoragePayload ls), false, true, false⟩ := by
    simp [pushTick, pushToCloud, h]
  rw [hr1]
  refine ⟨rfl, rfl, ?_, ?_, ?_⟩ <;> simp [pushTick]

/-- Witness for C4: the second push tick after pushing from `sampleStore`
makes no network call. -/
theorem push_twice_single_upsert_witness :
    stringifyPayload (readLocalStoragePayload sampleStore) ≠ ""
    ∧ (pushTick sampleStore
        (pushTick sampleStore none "" false false false).remote
        (pushTick sampleStore none "" false false false).lastPushed
        (pushTick sampleStore none "" false false false).pushing
        false false).upsertCalled = false :=
  ⟨by decide, (push_twice_single_upsert sampleStore none "" (by decide)).2.2.1⟩

/-- C5: with the session storage available, once a merged pull schedules a
reload at time `t1`, a second merged pull whose decision falls before
`t1 + cooldown` does not schedule a reload and only shows the refresh
notification, while a merged pull at or after `t1 + cooldown` schedules
another reload. -/
theorem reload_throttle_window (c1 c2 c3 : Payload)
    (ls1 ls2 ls3 : LocalStore) (rs : ReloadStore) (t1 t2 t3 : Int)
    (hav : rs.avail = true)
    (h1 : (periodicPullTick (some c1) ls1 rs t1).reloadScheduled = true)
    (h2 : t2 - t1 < AUTO_RELOAD_INTERVAL_MS)
    (h3 : AUTO_RELOAD_INTERVAL_MS ≤ t3 - t1)
    (hk2 : objectKeys c2 ≠ [])
    (hm2 : isSamePayload c2 (readLocalStoragePayload ls2) = false)
    (hk3 : objectKeys c3 ≠ [])
    (hm3 : isSamePayload c3 (readLocalStoragePayload ls3) = false) :
    (periodicPullTick (some c2) ls2
        (periodicPullTick (some c1) ls1 rs t1).rs t2).reloadScheduled = false
    ∧ (periodicPullTick (some c2) ls2
        (periodicPullTick (some c1) ls1 rs t1).rs t2).notified = true
    ∧ (periodicPullTick (some c3) ls3
        (periodicPullTick (some c1) ls1 rs t1).rs t3).reloadScheduled = true := by
  have hrs : (periodicPullTick (some c1) ls1 rs t1).rs = markAutoReloadNow rs t1 :=
    periodicPullTick_rs_of_reload h1
  have hmark : markAutoReloadNow rs t1 = ⟨true, some t1⟩ := by
    simp [markAutoReloadNow, hav]
  rw [hrs, hmark]
  have hcan2 : canAutoReloadNow ⟨true, some t1⟩ t2 = false := by
    simp only [canAutoReloadNow, getLastAutoReloadAt, AUTO_RELOAD_INTERVAL_MS,
      decide_eq_false_iff_not, not_le, if_true, Option.getD_some]
    simp only [AUTO_RELOAD_INTERVAL_MS] at h2
    omega
  have hcan3 : canAutoReloadNow ⟨true, some t1⟩ t3 = true := by
    simp only [canAutoReloadNow, getLastAutoReloadAt, AUTO_RELOAD_INTERVAL_MS,
      decide_eq_true_eq, if_true, Option.getD_some]
    simp only [AUTO_RELOAD_INTERVAL_MS] at h3
    omega
  obtain ⟨a2, b2, _⟩ := periodicPullTick_merged (⟨true, some t1⟩ : ReloadStore) t2 hk2 hm2
  obtain ⟨a3, _, _⟩ := periodicPullTick_merged (⟨true, some t1⟩ : ReloadStore) t3 hk3 hm3
  rw [a2, b2, a3, hcan2, hcan3]
  exact ⟨rfl, rfl, rfl⟩

/-- Witness for C5: a reload at t=3600000, a throttled merged pull one
millisecond later. -/
theorem reload_throttle_window_witness :
    ((⟨true, none⟩ : ReloadStore).avail = true)
    ∧ (periodicPullTick (some cloudB) emptyStore ⟨true, none⟩ 3600000).reloadScheduled = true
    ∧ ((3600001 : Int) - 3600000 < AUTO_RELOAD_INTERVAL_MS)
    ∧ (AUTO_RELOAD_INTERVAL_MS ≤ (7200000 : Int) - 3600000)
    ∧ objectKeys cloudC ≠ []
    ∧ isSamePayload cloudC (readLocalStoragePayload emptyStore) = false
    ∧ (periodicPullTick (some cloudC) emptyStore
        (periodicPullTick (some cloudB) emptyStore ⟨true, none⟩ 3600000).rs
        3600001).reloadScheduled = false :=
  ⟨rfl, by decide, by decide, by decide, by decide, by decide,
   (reload_throttle_window cloudB cloudC cloudC emptyStore emptyStore emptyStore
      ⟨true, none⟩ 3600000 3600001 7200000 rfl (by decide) (by decide) (by decide)
      (by decide) (by decide) (by decide) (by decide)).1⟩

/-- C6 (code-bug evidence): when the session-scoped storage is unavailable,
`getLastAutoReloadAt` falls back to 0, so the cooldown check passes at any
realistic clock value: a merged pull schedules a reload, the mark is not
persisted, and an immediately following merged pull schedules a reload
again.  The throttle degrades to always-allowed, not to permanently
disabled as the spec requires. -/
theorem storage_unavailable_reloads_every_merge :
    getLastAutoReloadAt ⟨false, none⟩ = 0
    ∧ (periodicPullTick (some cloudB) emptyStore ⟨false, none⟩ 7200000).reloadScheduled = true
    ∧ (periodicPullTick (some cloudC)
        (periodicPullTick (some cloudB) emptyStore ⟨false, none⟩ 7200000).store
        (periodicPullTick (some cloudB) emptyStore ⟨false, none⟩ 7200000).rs
        7201000).reloadScheduled = true :=
  ⟨rfl, by decide, by decide⟩

/-- C7 counterexample: a bootstrap whose pull merges (remote differs from
local) while the reload is throttled still performs the baseline push, so
the push is not performed only on `NoRemoteData` or `UpToDate`. -/
theorem bootstrap_merged_throttled_pushes :
    (bootstrap (some cloudB) emptyStore ⟨true, some 0⟩ 0 "" none).outcome
      = PullOutcome.merged
    ∧ (bootstrap (some cloudB) emptyStore ⟨true, some 0⟩ 0 "" none).pushed = true
    ∧ canAutoReloadNow ⟨true, some 0⟩ 0 = false := by
  refine ⟨by decide, by decide, by decide⟩

/-- C7 (amended): bootstrap pushes the current snapshot exactly when no
reload was scheduled — when the pull outcome is `NoRemoteData`, `UpToDate`,
or `Merged` with the reload throttled; when the pull merges and the reload
is allowed, bootstrap schedules the reload and stops without pushing. -/
theorem bootstrap_push_iff_no_reload (cloud : Option Payload) (ls : LocalStore)
    (rs : ReloadStore) (now : Int) (lastPushed : String)
    (remote : Option Payload) :
    (bootstrap cloud ls rs now lastPushed remote).pushed
      = !(bootstrap cloud ls rs now lastPushed remote).reloadScheduled
    ∧ ((bootstrap cloud ls rs now lastPushed remote).reloadScheduled = true
        ↔ ((bootstrap cloud ls rs now lastPushed remote).outcome
              = PullOutcome.merged
            ∧ canAutoReloadNow rs now = true)) := by
  match cloud with
  | none => simp [bootstrap]
  | some p =>
    by_cases h0 : 0 < (objectKeys p).length
    · by_cases hs : isSamePayload p (readLocalStoragePayload ls) = true
      · simp [bootstrap, h0, hs]
      · have hs' : isSamePayload p (readLocalStoragePayload ls) = false := by
          simpa using hs
        by_cases hcan : canAutoReloadNow rs now = true
        · simp [bootstrap, h0, hs', hcan]
        · have hcan' : canAutoReloadNow rs now = false := by simpa using hcan
          simp [bootstrap, h0, hs', hcan']
    · simp [bootstrap, h0]

/-- Witness for C7 (amended) at a merged-and-throttled bootstrap. -/
theorem bootstrap_push_iff_no_reload_witness :
    (bootstrap (some cloudB) emptyStore ⟨true, some 0⟩ 0 "" none).pushed
      = !(bootstrap (some cloudB) emptyStore ⟨true, some 0⟩ 0 "" none).reloadScheduled :=
  (bootstrap_push_iff_no_reload (some cloudB) emptyStore ⟨true, some 0⟩ 0 "" none).1

/-- C8: when the remote upsert of a push attempt fails, the caller's state
is unchanged — the digest keeps its previous value, the Local Store and the
remote record are untouched — the in-flight flag is cleared by the
`finally`, the error is caught (logged, never fatal), and the next tick
with the same snapshot attempts the upsert again. -/
theorem push_failure_rollback (ls : LocalStore) (remote : Option Payload)
    (lastPushed : String)
    (h : stringifyPayload (readLocalStoragePayload ls) ≠ lastPushed) :
    (pushTick ls remote lastPushed false false true).ls = ls
    ∧ (pushTick ls remote lastPushed false false true).remote = remote
    ∧ (pushTick ls remote lastPushed false false true).lastPushed = lastPushed
    ∧ (pushTick ls remote lastPushed false false true).pushing = false
    ∧ (pushTick ls remote lastPushed false false true).upsertCalled = true
    ∧ (pushTick ls remote lastPushed false false true).errored = true
    ∧ (pushTick ls remote lastPushed false false false).upsertCalled = true := by
  simp [pushTick, pushToCloud, h]

/-- Witness for C8: a failing push from `sampleStore` keeps the empty
digest and reports the caught error. -/
theorem push_failure_rollback_witness :
    stringifyPayload (readLocalStoragePayload sampleStore) ≠ ""
    ∧ (pushTick sampleStore none "" false false true).errored = true :=
  ⟨by decide, (push_failure_rollback sampleStore none "" (by decide)).2.2.2.2.2.1⟩

/-- C9: with the backend not configured (the remote client is null), a pull
returns the no-data result and a push returns without issuing a network
upsert, for every remote record, payload and failure condition; the remote
record is unchanged and neither function takes the Local Store as a
mutation target, so nothing local is touched either. -/
theorem not_configured_noop (remote : Option Payload) (p : Payload)
    (fail : Bool) :
    pullFromCloud false remote = none
    ∧ pushToCloud false fail remote p = Except.ok (remote, false) :=
  ⟨pullFromCloud_false remote, by simp [pushToCloud]⟩

/-- C10: a remote record whose payload is the empty object is handled by
both pull sites exactly like a missing record: the bootstrap result is the
same as for no record — local store untouched, no reload, the local
snapshot pushed over the empty remote payload — and the periodic pull tick
is the same no-op as for no record. -/
theorem empty_payload_like_missing (ls : LocalStore) (rs : ReloadStore)
    (now : Int) (lastPushed : String) (remote : Option Payload) :
    bootstrap (some []) ls rs now lastPushed remote
      = bootstrap none ls rs now lastPushed remote
    ∧ periodicPullTick (some []) ls rs now = periodicPullTick none ls rs now
    ∧ (bootstrap none ls rs now lastPushed remote).store = ls
    ∧ (bootstrap none ls rs now lastPushed remote).reloadScheduled = false
    ∧ (bootstrap none ls rs now lastPushed remote).pushed = true
    ∧ (bootstrap none ls rs now lastPushed remote).remote
        = some (readLocalStoragePayload ls)
    ∧ (periodicPullTick none ls rs now).store = ls
    ∧ (periodicPullTick none ls rs now).reloadScheduled = false := by
  refine ⟨?_, ?_, rfl, rfl, rfl, rfl, rfl, rfl⟩
  · simp [bootstrap, objectKeys]
  · simp [periodicPullTick, objectKeys]
